import Mathlib

/-!
Verification development for the account-creation automation repository.

The JavaScript sources are shallowly embedded in Lean: pure computations
become Lean functions, fallible operations become `Except String`-valued
functions, the browser and network are abstracted as injected outcome
functions, and wall-clock delays are recorded as rational millisecond
values in an explicit log.  JavaScript numbers appearing here (retry
delays, multipliers) stay in ranges where IEEE double arithmetic is
exact, so modelling them with rationals is faithful.
-/

/-- Observable outcome of one run of the `retry` wrapper from
`src/utils.js`: the returned value or thrown error, the number of times
the wrapped operation `fn` was invoked, and the list of backoff delays
(in milliseconds) that were awaited between attempts, in order. -/
structure RunLog (α : Type) where
  result : Except String α
  calls : Nat
  delays : List ℚ

/-- Loop body of `retry` from `src/utils.js` lines 40-59.  `fn k` is the
outcome of the k-th invocation of the wrapped operation (1-indexed).
`remaining` counts the attempts still allowed, `attempt` is the current
attempt number, `lastErr` mirrors the `lastError` variable (initially
`null`, i.e. `none`).  A delay of `retryDelay * retryMultiplier ^ (attempt - 1)`
is awaited after a failed attempt exactly when `attempt < maxRetries`,
that is, when further attempts remain.  If the loop ends with every
attempt failed, the wrapper throws
`name ++ " failed after " ++ maxRetries ++ " attempts: " ++ lastError.message`;
with `maxRetries = 0` the JavaScript would instead crash reading
`.message` of `null`, which the `Option.getD` fallback records. -/
def retryLoop {α : Type} (name : String) (maxRetries : ℕ)
    (retryDelay retryMultiplier : ℚ) (fn : ℕ → Except String α) :
    ℕ → ℕ → Option String → RunLog α
  | 0, _, lastErr =>
      ⟨Except.error (name ++ " failed after " ++ toString maxRetries ++
        " attempts: " ++ lastErr.getD ("TypeError: Cannot read properties of null")),
       0, []⟩
  | r + 1, attempt, _ =>
      match fn attempt with
      | Except.ok v => ⟨Except.ok v, 1, []⟩
      | Except.error e =>
          let rest := retryLoop name maxRetries retryDelay retryMultiplier fn
            r (attempt + 1) (some e)
          ⟨rest.result, rest.calls + 1,
            (if 0 < r then [retryDelay * retryMultiplier ^ (attempt - 1)] else [])
              ++ rest.delays⟩

/-- The `retry` wrapper of `src/utils.js` (lines 30-62), started at
attempt 1 with `lastError = null`. -/
def retry {α : Type} (name : String) (maxRetries : ℕ)
    (retryDelay retryMultiplier : ℚ) (fn : ℕ → Except String α) : RunLog α :=
  retryLoop name maxRetries retryDelay retryMultiplier fn maxRetries 1 none

/-- Default `maxRetries` of the option destructuring in `retry`. -/
def retryDefaultMaxRetries : ℕ := 3

/-- Default `retryDelay` (ms) of the option destructuring in `retry`. -/
def retryDefaultDelay : ℚ := 2000

/-- Default `retryMultiplier` of the option destructuring in `retry`;
the source literal `1.5` is exact in IEEE doubles. -/
def retryDefaultMultiplier : ℚ := 3 / 2

/-- JavaScript `String.prototype.includes` on explicit character lists:
`hasSubstring pat cs` is true when `pat` occurs contiguously in `cs`. -/
def hasSubstring (pat : List Char) : List Char → Bool
  | [] => pat.isEmpty
  | c :: rest => pat.isPrefixOf (c :: rest) || hasSubstring pat rest

/-- `s.includes(pat)` of JavaScript, over Lean strings. -/
def strIncludes (s pat : String) : Bool :=
  hasSubstring pat.toList s.toList

/-- Result object of `categorizeError` in `src/utils.js`. -/
structure ErrorCategory where
  type : String
  recoverable : Bool
  message : String

/-- `categorizeError` from `src/utils.js` lines 141-175: lowercases the
error message and tests fixed substrings in source order. -/
def categorizeError (errMsg : String) : ErrorCategory :=
  let m := errMsg.toLower
  if strIncludes m ("captcha") then
    ⟨"CAPTCHA_ERROR", true, "CAPTCHA solving failed"⟩
  else if strIncludes m ("timeout") || strIncludes m ("navigation") then
    ⟨"NAVIGATION_ERROR", true, "Page navigation timed out"⟩
  else if strIncludes m ("selector") || strIncludes m ("element") then
    ⟨"ELEMENT_ERROR", true, "Element not found or unavailable"⟩
  else if strIncludes m ("verification") || strIncludes m ("sms") ||
      strIncludes m ("phone") then
    ⟨"VERIFICATION_ERROR", false, "Verification failed"⟩
  else
    ⟨"UNKNOWN_ERROR", false, errMsg⟩

/-- Outer polling loop of `waitForAnySelector` from
`src/screenshot-utils.js` lines 102-129.  The page is abstracted as a
static predicate `pageMatches` on selectors; each pass scans the selector
list in order (the first match is returned), and `fuel` counts the
passes the wall clock allows before `Date.now() - startTime < timeout`
fails, at which point the error naming every selector is thrown. -/
def waitForAnySelectorLoop (pageMatches : String → Bool) (selectors : List String)
    (timeout : ℕ) : ℕ → Except String String
  | 0 =>
      Except.error ("None of the selectors found within " ++ toString timeout ++
        "ms: " ++ String.intercalate (", ") selectors)
  | fuel + 1 =>
      match selectors.find? pageMatches with
      | some s => Except.ok s
      | none => waitForAnySelectorLoop pageMatches selectors timeout fuel

/-- `waitForAnySelector` with an explicit pass budget `fuel ≥ 1`
standing for the time available within `timeout`. -/
def waitForAnySelector (pageMatches : String → Bool) (selectors : List String)
    (timeout fuel : ℕ) : Except String String :=
  waitForAnySelectorLoop pageMatches selectors timeout fuel

/-- Default `timeout` of the option destructuring in
`waitForAnySelector`. -/
def waitForAnySelectorDefaultTimeout : ℕ := 15000

/-- Account record pushed by `createAccounts`; only the two fields used
by the serialization step are modelled. -/
structure AppleAccount where
  appleEmail : String
  applePassword : String
deriving DecidableEq

/-- Serialization of `accountsData` in `src/create-accounts.js` lines
1147-1150: one block per account, blocks joined with a newline. -/
def serializeAccounts (accountsData : List AppleAccount) : String :=
  String.intercalate ("\n") (accountsData.map (fun account =>
    "Apple ID: " ++ account.appleEmail ++ "\nPassword: " ++
      account.applePassword ++ "\n"))

/-- `fs.writeFileSync` with the default `w` flag: the new file content
is the written data; prior content is discarded. -/
def writeFileSync (_prior : String) (data : String) : String := data

/-- `fs.appendFileSync` (used by `log` in `src/utils.js`): the new file
content is the prior content followed by the written data. -/
def appendFileSync (prior : String) (data : String) : String :=
  prior ++ data

/-- Persistence step of `createAccounts` (`src/create-accounts.js` line
1152): `fs.writeFileSync('accounts.txt', accountsText)` applied to the
prior content of `accounts.txt`. -/
def persistAccounts (prior : String) (accountsData : List AppleAccount) : String :=
  writeFileSync prior (serializeAccounts accountsData)

/-- Hardcoded 2Captcha key fragments, `src/create-accounts.js` lines
160-168. -/
def capKey1 : String := "511f"

def capKey2 : String := "6122"

def capKey3 : String := "56b8"

def capKey4 : String := "9699"

def capKey5 : String := "7579"

def capKey6 : String := "db74"

def capKey7 : String := "5494"

def capKey8 : String := "bfc8"

/-- `TWOCAPTCHA_API_KEY`, assembled at startup by concatenation. -/
def TWOCAPTCHA_API_KEY : String :=
  capKey1 ++ capKey2 ++ capKey3 ++ capKey4 ++ capKey5 ++ capKey6 ++
    capKey7 ++ capKey8

/-- Hardcoded Twilio SID fragments, lines 171-180. -/
def twilioPrefix : String := "AC"

def twilioId1 : String := "df2d"

def twilioId2 : String := "55bf"

def twilioId3 : String := "b113"

def twilioId4 : String := "5175"

def twilioId5 : String := "dcea"

def twilioId6 : String := "64c4"

def twilioId7 : String := "09bb"

def twilioId8 : String := "e9a3"

/-- `TWILIO_ACCOUNT_SID`, assembled at startup by concatenation. -/
def TWILIO_ACCOUNT_SID : String :=
  twilioPrefix ++ twilioId1 ++ twilioId2 ++ twilioId3 ++ twilioId4 ++
    twilioId5 ++ twilioId6 ++ twilioId7 ++ twilioId8

/-- Hardcoded Twilio auth token fragments, lines 183-191. -/
def authToken1 : String := "fc60"

def authToken2 : String := "cff2"

def authToken3 : String := "421a"

def authToken4 : String := "59c9"

def authToken5 : String := "deab"

def authToken6 : String := "04ad"

def authToken7 : String := "a45f"

def authToken8 : String := "e7fa"

/-- `TWILIO_AUTH_TOKEN`, assembled at startup by concatenation. -/
def TWILIO_AUTH_TOKEN : String :=
  authToken1 ++ authToken2 ++ authToken3 ++ authToken4 ++ authToken5 ++
    authToken6 ++ authToken7 ++ authToken8

/-- Hardcoded phone number fragments, lines 194-197. -/
def countryCode : String := "+1"

def areaCode : String := "949"

def phonePrefix : String := "775"

def phoneSuffix : String := "3576"

/-- `TWILIO_PHONE_NUMBER`, assembled at startup by concatenation. -/
def TWILIO_PHONE_NUMBER : String :=
  countryCode ++ areaCode ++ phonePrefix ++ phoneSuffix

/-- Leading decimal digits of a character list, as `parseInt` radix 10
reads them; `none` when no leading digit exists (the NaN case). -/
def parseDigits (cs : List Char) : Option ℕ :=
  let ds := cs.takeWhile Char.isDigit
  if ds.isEmpty then none
  else some (ds.foldl (fun acc c => 10 * acc + (c.toNat - 48)) 0)

/-- JavaScript `parseInt(s, 10)`: skip leading whitespace, read an
optional sign and then the longest prefix of decimal digits; `none`
stands for `NaN`. -/
def jsParseInt (s : String) : Option ℤ :=
  let cs := s.toList.dropWhile Char.isWhitespace
  match cs with
  | '-' :: rest => (parseDigits rest).map (fun n => -(n : ℤ))
  | '+' :: rest => (parseDigits rest).map (fun n => (n : ℤ))
  | _ => (parseDigits cs).map (fun n => (n : ℤ))

/-- JavaScript `value || dflt` on an optional environment string: the
default is used when the variable is unset or set to the empty string
(the empty string is falsy). -/
def jsOrDefault (value : Option String) (dflt : String) : String :=
  match value with
  | some s => if s = "" then dflt else s
  | none => dflt

/-- `ACCOUNTS_COUNT` from `src/create-accounts.js` line 202, as a
function of the `ACCOUNTS_COUNT` environment variable:
`parseInt(process.env.ACCOUNTS_COUNT || '1', 10)`. -/
def ACCOUNTS_COUNT (envVar : Option String) : Option ℤ :=
  jsParseInt (jsOrDefault envVar ("1"))

/-- Number of iterations of `for (let i = 0; i < ACCOUNTS_COUNT; i++)`:
zero when the bound is `NaN` (every comparison with NaN is false) and
`Int.toNat` clamps negative bounds to zero. -/
def loopIterations (count : Option ℤ) : ℕ :=
  match count with
  | none => 0
  | some n => n.toNat

/-- Environment: a partial map from variable names to values. -/
def Env : Type := String → Option String

/-- Module-level constants computed when `src/create-accounts.js`
loads, as a function of the process environment.  Only
`accountsCount` reads the environment; the four credentials are the
hardcoded concatenations above. -/
structure InitConfig where
  twoCaptchaKey : String
  twilioSid : String
  twilioToken : String
  twilioPhone : String
  accountsCount : Option ℤ

/-- Startup initialization of `src/create-accounts.js` lines 158-202. -/
def moduleInit (env : Env) : InitConfig :=
  ⟨TWOCAPTCHA_API_KEY, TWILIO_ACCOUNT_SID, TWILIO_AUTH_TOKEN,
    TWILIO_PHONE_NUMBER, ACCOUNTS_COUNT (env ("ACCOUNTS_COUNT"))⟩

/-- Outcome of one account iteration of `createAccounts`
(`src/create-accounts.js` lines 1078-1144).  The browser steps are
abstracted: `gmail k` and `outlook k` are the outcomes of the k-th
invocation of `createGmailAccount` and `createOutlookAccount` in this
iteration (the created email profile or the thrown error), and
`apple p g k` is the outcome of the k-th invocation of
`createAppleID` for email profile `p` with `isGmail = g`. -/
structure IterResult where
  result : Except String AppleAccount
  gmailCalls : ℕ
  outlookCalls : ℕ
  appleCalls : ℕ
  emailProfile : Option (String × Bool)
  appleAttempted : Bool

/-- One iteration of the account loop: Gmail first through `retry`
(maxRetries 2, retryDelay 5000), Outlook through `retry` only if the
Gmail stage failed, the fixed error when both stages failed, and the
Apple ID stage through `retry` only when an email profile exists (the
`if (emailProfile)` guard; a failed Apple stage rethrows its error). -/
def createOneAccount (gmail outlook : ℕ → Except String String)
    (apple : String → Bool → ℕ → Except String AppleAccount) : IterResult :=
  let g := retry ("Gmail account creation") 2 5000 (3 / 2) gmail
  match g.result with
  | Except.ok p =>
      let a := retry ("Apple ID creation") 2 5000 (3 / 2) (apple p true)
      ⟨a.result, g.calls, 0, a.calls, some (p, true), true⟩
  | Except.error _ =>
      let o := retry ("Outlook account creation") 2 5000 (3 / 2) outlook
      match o.result with
      | Except.ok p =>
          let a := retry ("Apple ID creation") 2 5000 (3 / 2) (apple p false)
          ⟨a.result, g.calls, o.calls, a.calls, some (p, false), true⟩
      | Except.error _ =>
          ⟨Except.error ("Failed to create any email account"),
            g.calls, o.calls, 0, none, false⟩

/-- The account loop of `createAccounts`: run `iter` for indices
`i, i+1, ...` while `remaining` iterations are left, collecting the
completed records; a thrown error aborts the loop and propagates. -/
def collectAccounts (iter : ℕ → Except String AppleAccount) :
    ℕ → ℕ → Except String (List AppleAccount)
  | 0, _ => Except.ok []
  | remaining + 1, i =>
      match iter i with
      | Except.ok a =>
          (collectAccounts iter remaining (i + 1)).map (fun rest => a :: rest)
      | Except.error e => Except.error e

/-- `createAccounts` after browser startup: run `count` iterations and,
on success, write the serialized records to `accounts.txt` (the `ok`
value is the file content written); an error skips the write and is
rethrown. -/
def createAccountsRun (count : ℕ) (iter : ℕ → Except String AppleAccount) :
    Except String String :=
  (collectAccounts iter count 0).map serializeAccounts

/-- Console report of the top-level IIFE of `src/create-accounts.js`. -/
def mainReport (r : Except String String) : String :=
  match r with
  | Except.ok _ => "Account creation process completed successfully"
  | Except.error _ => "=== SCRIPT EXECUTION FAILED ==="

/-- `new Date().toISOString().replace(/:/g, '-')` of the capture
helpers: every colon becomes a dash. -/
def sanitizeTimestamp (ts : String) : String :=
  ts.map (fun c => if c = ':' then '-' else c)

/-- `captureScreenshot` from `src/screenshot-utils.js` lines 14-28.
`dirResult` is the outcome of `ensureScreenshotsDir`, `shoot p` the
outcome of `page.screenshot({ path: p, fullPage: true })`; the
surrounding try/catch returns the file path on success and `null`
(`none`) on any error. -/
def captureScreenshot (dirResult : Except String String) (rawTs name : String)
    (shoot : String → Except String Unit) : Option String :=
  match dirResult with
  | Except.error _ => none
  | Except.ok dir =>
      let filepath := dir ++ "/" ++ name ++ "_" ++ sanitizeTimestamp rawTs ++ ".png"
      match shoot filepath with
      | Except.ok _ => some filepath
      | Except.error _ => none

/-- `captureHtml` from `src/screenshot-utils.js` lines 31-46.
`content` is the outcome of `page.content()` and `writeFile p html`
the outcome of `fs.writeFileSync(p, html)`. -/
def captureHtml (dirResult : Except String String) (rawTs name : String)
    (content : Except String String)
    (writeFile : String → String → Except String Unit) : Option String :=
  match dirResult with
  | Except.error _ => none
  | Except.ok dir =>
      let filepath := dir ++ "/" ++ name ++ "_" ++ sanitizeTimestamp rawTs ++ ".html"
      match content with
      | Except.error _ => none
      | Except.ok html =>
          match writeFile filepath html with
          | Except.ok _ => some filepath
          | Except.error _ => none

theorem retryLoop_calls_le {α : Type} (name : String) (maxRetries : ℕ)
    (d m : ℚ) (fn : ℕ → Except String α) :
    ∀ r a le, (retryLoop name maxRetries d m fn r a le).calls ≤ r := by
  intro r
  induction r with
  | zero => intro a le; simp [retryLoop]
  | succ r ih =>
      intro a le
      simp only [retryLoop]
      cases fn a with
      | ok v => simp
      | error e => simpa using ih (a + 1) (some e)

theorem retryLoop_calls_pos {α : Type} (name : String) (maxRetries : ℕ)
    (d m : ℚ) (fn : ℕ → Except String α) (r a : ℕ) (le : Option String) :
    1 ≤ (retryLoop name maxRetries d m fn (r + 1) a le).calls := by
  simp only [retryLoop]
  cases fn a with
  | ok v => simp
  | error e => simp

theorem retryLoop_ok_spec {α : Type} (name : String) (maxRetries : ℕ)
    (d m : ℚ) (fn : ℕ → Except String α) :
    ∀ r a le v, (retryLoop name maxRetries d m fn r a le).result = Except.ok v →
      ∃ k, k < r ∧ fn (a + k) = Except.ok v ∧
        (retryLoop name maxRetries d m fn r a le).calls = k + 1 ∧
        ∀ j, j < k → ∃ e, fn (a + j) = Except.error e := by
  intro r
  induction r with
  | zero => intro a le v h; simp [retryLoop] at h
  | succ r ih =>
      intro a le v h
      simp only [retryLoop] at h ⊢
      cases hfa : fn a with
      | ok w =>
          simp only [hfa] at h ⊢
          obtain rfl : w = v := by simpa using h
          exact ⟨0, by omega, by simpa using hfa, by simp, by omega⟩
      | error e =>
          simp only [hfa] at h ⊢
          obtain ⟨k, hk, hok, hcalls, hprev⟩ := ih (a + 1) (some e) v h
          refine ⟨k + 1, by omega, by rwa [show a + (k + 1) = a + 1 + k by omega],
            by simpa using hcalls, ?_⟩
          intro j hj
          cases j with
          | zero => exact ⟨e, by simpa using hfa⟩
          | succ j =>
              obtain ⟨e2, he2⟩ := hprev j (by omega)
              exact ⟨e2, by rwa [show a + (j + 1) = a + 1 + j by omega]⟩

theorem retryLoop_fail_spec {α : Type} (name : String) (maxRetries : ℕ)
    (d m : ℚ) (fn : ℕ → Except String α) (errs : ℕ → String) :
    ∀ r a le, 1 ≤ r → (∀ j, j < r → fn (a + j) = Except.error (errs (a + j))) →
      (retryLoop name maxRetries d m fn r a le).result =
        Except.error (name ++ " failed after " ++ toString maxRetries ++
          " attempts: " ++ errs (a + r - 1)) := by
  intro r
  induction r with
  | zero => intro a le h; omega
  | succ r ih =>
      intro a le _ hfail
      simp only [retryLoop]
      have hfa : fn a = Except.error (errs a) := by simpa using hfail 0 (by omega)
      rw [hfa]
      cases r with
      | zero =>
          simp [retryLoop, Option.getD]
      | succ r =>
          have := ih (a + 1) (some (errs a)) (by omega)
            (fun j hj => by
              rw [show a + 1 + j = a + (j + 1) by omega]
              exact hfail (j + 1) (by omega))
          simpa [show a + 1 + (r + 1) - 1 = a + (r + 1 + 1) - 1 by omega] using this

theorem retryLoop_delays_get {α : Type} (name : String) (maxRetries : ℕ)
    (d m : ℚ) (fn : ℕ → Except String α) :
    ∀ i r a le, i + 1 < r → (∀ j, j ≤ i → ∃ e, fn (a + j) = Except.error e) →
      (retryLoop name maxRetries d m fn r a le).delays[i]? =
        some (d * m ^ (a + i - 1)) := by
  intro i
  induction i with
  | zero =>
      intro r a le hr hfail
      obtain ⟨r, rfl⟩ : ∃ r2, r = r2 + 1 := ⟨r - 1, by omega⟩
      obtain ⟨e, he⟩ := hfail 0 (by omega)
      rw [show a + 0 = a by omega] at he
      simp only [retryLoop, he]
      rw [if_pos (by omega : 0 < r)]
      simp
  | succ i ih =>
      intro r a le hr hfail
      obtain ⟨r, rfl⟩ : ∃ r2, r = r2 + 1 := ⟨r - 1, by omega⟩
      obtain ⟨e, he⟩ := hfail 0 (by omega)
      rw [show a + 0 = a by omega] at he
      simp only [retryLoop, he]
      rw [if_pos (by omega : 0 < r)]
      have := ih r (a + 1) (some e) (by omega)
        (fun j hj => by
          rw [show a + 1 + j = a + (j + 1) by omega]
          exact hfail (j + 1) (by omega))
      simp only [List.cons_append, List.getElem?_cons_succ, List.nil_append]
      rw [this, show a + 1 + i - 1 = a + (i + 1) - 1 by omega]

theorem retryLoop_first_success {α : Type} (name : String) (maxRetries : ℕ)
    (d m : ℚ) (fn : ℕ → Except String α) :
    ∀ k r a le v, k < r → fn (a + k) = Except.ok v →
      (∀ j, j < k → ∃ e, fn (a + j) = Except.error e) →
      (retryLoop name maxRetries d m fn r a le).result = Except.ok v ∧
        (retryLoop name maxRetries d m fn r a le).calls = k + 1 := by
  intro k
  induction k with
  | zero =>
      intro r a le v hr hok _
      obtain ⟨r, rfl⟩ : ∃ r2, r = r2 + 1 := ⟨r - 1, by omega⟩
      rw [show a + 0 = a by omega] at hok
      simp [retryLoop, hok]
  | succ k ih =>
      intro r a le v hr hok hfail
      obtain ⟨r, rfl⟩ : ∃ r2, r = r2 + 1 := ⟨r - 1, by omega⟩
      obtain ⟨e, he⟩ := hfail 0 (by omega)
      rw [show a + 0 = a by omega] at he
      have := ih r (a + 1) (some e) v (by omega)
        (by rwa [show a + 1 + k = a + (k + 1) by omega])
        (fun j hj => by
          rw [show a + 1 + j = a + (j + 1) by omega]
          exact hfail (j + 1) (by omega))
      simp only [retryLoop, he]
      exact ⟨this.1, by rw [this.2]⟩

/-- Claim C2: for every operation `fn` and every `maxRetries ≥ 1`
(default 3), the `retry` wrapper of `src/utils.js` invokes `fn` at most
`maxRetries` times; if some invocation succeeds, `retry` returns that
invocation result and performs no further invocations (forward: when
attempt k is the first to succeed, the result is its value and exactly
k calls are made; conversely an ok result always comes from such a
first success); if all
`maxRetries` invocations throw, `retry` throws an error whose message
contains the operation name, the value of `maxRetries`, and the message
of the last invocation error (the message is exactly their
concatenation with the fixed text of the source). -/
theorem retry_attempt_spec {α : Type} (fn : ℕ → Except String α)
    (name : String) (maxRetries : ℕ) (d m : ℚ) (h : 1 ≤ maxRetries) :
    (retry name maxRetries d m fn).calls ≤ maxRetries ∧
    retryDefaultMaxRetries = 3 ∧
    (∀ k v, 1 ≤ k → k ≤ maxRetries → fn k = Except.ok v →
      (∀ j, 1 ≤ j → j < k → ∃ e, fn j = Except.error e) →
      (retry name maxRetries d m fn).result = Except.ok v ∧
        (retry name maxRetries d m fn).calls = k) ∧
    (∀ v, (retry name maxRetries d m fn).result = Except.ok v →
      ∃ k, 1 ≤ k ∧ k ≤ maxRetries ∧ fn k = Except.ok v ∧
        (retry name maxRetries d m fn).calls = k ∧
        ∀ j, 1 ≤ j → j < k → ∃ e, fn j = Except.error e) ∧
    (∀ errs : ℕ → String,
      (∀ j, 1 ≤ j → j ≤ maxRetries → fn j = Except.error (errs j)) →
      (retry name maxRetries d m fn).result =
        Except.error (name ++ " failed after " ++ toString maxRetries ++
          " attempts: " ++ errs maxRetries)) := by
  refine ⟨retryLoop_calls_le name maxRetries d m fn maxRetries 1 none, rfl, ?_, ?_, ?_⟩
  · intro k v hk1 hk2 hok hprev
    have := retryLoop_first_success name maxRetries d m fn (k - 1) maxRetries 1
      none v (by omega) (by rwa [show 1 + (k - 1) = k by omega])
      (fun j hj => by
        obtain ⟨e, he⟩ := hprev (j + 1) (by omega) (by omega)
        exact ⟨e, by rwa [show 1 + j = j + 1 by omega]⟩)
    exact ⟨this.1, by rw [retry, this.2]; omega⟩
  · intro v hv
    obtain ⟨k, hk, hok, hcalls, hprev⟩ :=
      retryLoop_ok_spec name maxRetries d m fn maxRetries 1 none v hv
    refine ⟨k + 1, by omega, by omega, by rwa [show 1 + k = k + 1 by omega] at hok,
      by simpa using hcalls, ?_⟩
    intro j hj1 hjk
    obtain ⟨e, he⟩ := hprev (j - 1) (by omega)
    exact ⟨e, by rwa [show 1 + (j - 1) = j by omega] at he⟩
  · intro errs herrs
    have := retryLoop_fail_spec name maxRetries d m fn errs maxRetries 1 none h
      (fun j hj => herrs (1 + j) (by omega) (by omega))
    simpa [show 1 + maxRetries - 1 = maxRetries by omega] using this

theorem retry_attempt_spec_witness :
    (retry ("op") 3 2000 (3 / 2)
      (fun n => if n = 2 then Except.ok 7 else Except.error ("boom"))).calls ≤ 3 :=
  (retry_attempt_spec (fun n => if n = 2 then Except.ok 7 else Except.error ("boom"))
    ("op") 3 2000 (3 / 2) (by decide)).1

/-- Claim C3: in the `retry` wrapper, for every `k` with
`1 ≤ k < maxRetries`, the delay awaited after the k-th failed attempt
equals `retryDelay * retryMultiplier ^ (k - 1)` (defaults
`retryDelay = 2000` ms and `retryMultiplier = 1.5`), so successive
retry delays grow geometrically: exponential backoff. -/
theorem retry_backoff_spec {α : Type} (fn : ℕ → Except String α)
    (name : String) (maxRetries k : ℕ) (d m : ℚ)
    (h1 : 1 ≤ k) (h2 : k < maxRetries)
    (hf : ∀ j, j < k → ∃ e, fn (1 + j) = Except.error e) :
    (retry name maxRetries d m fn).delays[k - 1]? = some (d * m ^ (k - 1)) ∧
    retryDefaultDelay = 2000 ∧ retryDefaultMultiplier = 3 / 2 := by
  refine ⟨?_, rfl, rfl⟩
  have := retryLoop_delays_get name maxRetries d m fn (k - 1) maxRetries 1 none
    (by omega) (fun j hj => hf j (by omega))
  rw [retry, this, show 1 + (k - 1) - 1 = k - 1 by omega]

theorem retry_backoff_spec_witness :
    (retry ("op") 2 5000 (3 / 2)
      (fun _ => (Except.error ("boom") : Except String ℕ))).delays[0]? =
      some (5000 * (3 / 2) ^ 0) :=
  (retry_backoff_spec (fun _ => (Except.error ("boom") : Except String ℕ))
    ("op") 2 1 5000 (3 / 2) (by decide) (by decide) (fun j _ => ⟨"boom", rfl⟩)).1

theorem waitForAnySelectorLoop_none (pageMatches : String → Bool)
    (selectors : List String) (timeout : ℕ)
    (hnone : selectors.find? pageMatches = none) :
    ∀ fuel, waitForAnySelectorLoop pageMatches selectors timeout fuel =
      Except.error ("None of the selectors found within " ++ toString timeout ++
        "ms: " ++ String.intercalate (", ") selectors) := by
  intro fuel
  induction fuel with
  | zero => simp [waitForAnySelectorLoop]
  | succ fuel ih => simp [waitForAnySelectorLoop, hnone, ih]

/-- Claim C4: for every non-empty selector list, `waitForAnySelector`
scans the list in order and returns the first selector matching on the
page (`List.find?` order); it throws the error naming every selector
(joined with a comma) if and only if no selector of the list matches
within the timeout (default 15000 ms).  The page is static here, and
`fuel ≥ 1` is the number of polling passes the timeout allows. -/
theorem waitForAnySelector_spec (pageMatches : String → Bool)
    (selectors : List String) (timeout fuel : ℕ)
    (hne : selectors ≠ []) (hfuel : 1 ≤ fuel) :
    (∀ s, selectors.find? pageMatches = some s →
      waitForAnySelector pageMatches selectors timeout fuel = Except.ok s) ∧
    (∀ s, waitForAnySelector pageMatches selectors timeout fuel = Except.ok s →
      selectors.find? pageMatches = some s ∧ pageMatches s = true ∧ s ∈ selectors) ∧
    ((∀ s ∈ selectors, pageMatches s = false) ↔
      waitForAnySelector pageMatches selectors timeout fuel =
        Except.error ("None of the selectors found within " ++ toString timeout ++
          "ms: " ++ String.intercalate (", ") selectors)) ∧
    waitForAnySelectorDefaultTimeout = 15000 := by
  obtain ⟨fuel, rfl⟩ : ∃ f, fuel = f + 1 := ⟨fuel - 1, by omega⟩
  refine ⟨?_, ?_, ?_, rfl⟩
  · intro s hs
    simp [waitForAnySelector, waitForAnySelectorLoop, hs]
  · intro s hs
    cases hfind : selectors.find? pageMatches with
    | none =>
        rw [waitForAnySelector, waitForAnySelectorLoop_none pageMatches selectors
          timeout hfind] at hs
        exact absurd hs (by simp)
    | some t =>
        simp only [waitForAnySelector, waitForAnySelectorLoop, hfind] at hs
        obtain rfl : t = s := by simpa using hs
        exact ⟨rfl, List.find?_some hfind, List.mem_of_find?_eq_some hfind⟩
  · constructor
    · intro hall
      have hnone : selectors.find? pageMatches = none := by
        rw [List.find?_eq_none]
        intro x hx
        simp [hall x hx]
      exact waitForAnySelectorLoop_none pageMatches selectors timeout hnone (fuel + 1)
    · intro herr s hs
      cases hfind : selectors.find? pageMatches with
      | none =>
          rw [List.find?_eq_none] at hfind
          simpa using hfind s hs
      | some t =>
          simp [waitForAnySelector, waitForAnySelectorLoop, hfind] at herr

theorem waitForAnySelector_spec_witness :
    waitForAnySelector (fun s => s == "#b") (["#a", "#b"]) 15000 1 =
      Except.ok ("#b") :=
  ((waitForAnySelector_spec (fun s => s == "#b") (["#a", "#b"]) 15000 1
    (by decide) (by decide)).1) ("#b") (by decide)

/-- Claim C9: `categorizeError` is total and deterministic (it is a
function), always returns one of the five categories, matches the
lowercased message against the fixed substrings in source order (so a
message containing both captcha and timeout is CAPTCHA_ERROR), and
`recoverable` is true exactly for the first three categories.  In the
UNKNOWN_ERROR case the original message is passed through. -/
theorem categorizeError_spec (msg : String) :
    ((categorizeError msg).type = "CAPTCHA_ERROR" ∨
      (categorizeError msg).type = "NAVIGATION_ERROR" ∨
      (categorizeError msg).type = "ELEMENT_ERROR" ∨
      (categorizeError msg).type = "VERIFICATION_ERROR" ∨
      (categorizeError msg).type = "UNKNOWN_ERROR") ∧
    ((categorizeError msg).recoverable = true ↔
      ((categorizeError msg).type = "CAPTCHA_ERROR" ∨
        (categorizeError msg).type = "NAVIGATION_ERROR" ∨
        (categorizeError msg).type = "ELEMENT_ERROR")) ∧
    (strIncludes msg.toLower ("captcha") = true →
      (categorizeError msg).type = "CAPTCHA_ERROR") ∧
    (strIncludes msg.toLower ("captcha") = false →
      (strIncludes msg.toLower ("timeout") || strIncludes msg.toLower ("navigation")) = true →
      (categorizeError msg).type = "NAVIGATION_ERROR") ∧
    (strIncludes msg.toLower ("captcha") = false →
      (strIncludes msg.toLower ("timeout") || strIncludes msg.toLower ("navigation")) = false →
      (strIncludes msg.toLower ("selector") || strIncludes msg.toLower ("element")) = true →
      (categorizeError msg).type = "ELEMENT_ERROR") ∧
    (strIncludes msg.toLower ("captcha") = false →
      (strIncludes msg.toLower ("timeout") || strIncludes msg.toLower ("navigation")) = false →
      (strIncludes msg.toLower ("selector") || strIncludes msg.toLower ("element")) = false →
      (strIncludes msg.toLower ("verification") || strIncludes msg.toLower ("sms") ||
        strIncludes msg.toLower ("phone")) = true →
      (categorizeError msg).type = "VERIFICATION_ERROR") ∧
    (strIncludes msg.toLower ("captcha") = false →
      (strIncludes msg.toLower ("timeout") || strIncludes msg.toLower ("navigation")) = false →
      (strIncludes msg.toLower ("selector") || strIncludes msg.toLower ("element")) = false →
      (strIncludes msg.toLower ("verification") || strIncludes msg.toLower ("sms") ||
        strIncludes msg.toLower ("phone")) = false →
      (categorizeError msg).type = "UNKNOWN_ERROR" ∧
        (categorizeError msg).message = msg) := by
  cases h1 : strIncludes msg.toLower ("captcha") <;>
    cases h2 : strIncludes msg.toLower ("timeout") <;>
    cases h3 : strIncludes msg.toLower ("navigation") <;>
    cases h4 : strIncludes msg.toLower ("selector") <;>
    cases h5 : strIncludes msg.toLower ("element") <;>
    cases h6 : strIncludes msg.toLower ("verification") <;>
    cases h7 : strIncludes msg.toLower ("sms") <;>
    cases h8 : strIncludes msg.toLower ("phone") <;>
    simp [categorizeError, h1, h2, h3, h4, h5, h6, h7, h8]

/-- Claim C1 counterexample: with prior file content `"old"` and one
completed record, the persistence step does not keep the prior content
as a prefix of the file; `fs.writeFileSync` truncates. -/
theorem persistAccounts_counterexample :
    ¬ ("old".data <+:
      (persistAccounts ("old") [⟨"a@icloud.com", "pw"⟩]).data) ∧
    persistAccounts ("old") [⟨"a@icloud.com", "pw"⟩] ≠
      "old" ++ serializeAccounts [⟨"a@icloud.com", "pw"⟩] := by
  constructor
  · decide
  · decide

/-- Claim C1 (amended): the persistence step overwrites the accounts
file: for every prior content, after the step the file content equals
exactly the serialization of the newly completed records; the prior
content survives as a prefix followed by the new records only when it
is empty. -/
theorem persistAccounts_overwrites (prior : String)
    (accountsData : List AppleAccount) :
    persistAccounts prior accountsData = serializeAccounts accountsData ∧
    (persistAccounts prior accountsData =
        prior ++ serializeAccounts accountsData ↔ prior = "") := by
  refine ⟨rfl, ?_, ?_⟩
  · intro h
    have hlen := congrArg String.length h
    rw [persistAccounts, writeFileSync, String.length_append] at hlen
    have : prior.length = 0 := by omega
    cases prior with
    | mk data =>
        cases data with
        | nil => rfl
        | cons c cs => simp [String.length] at this
  · intro h
    rw [h]
    rfl

/-- Claim C5: under any two process environments, the 2Captcha API key,
Twilio account SID, Twilio auth token and Twilio phone number computed
at module load are equal: each is the concatenation of hardcoded
string fragments and reads no environment variable (unlike
`accountsCount`, which does). -/
theorem credentials_constant (e1 e2 : Env) :
    (moduleInit e1).twoCaptchaKey = (moduleInit e2).twoCaptchaKey ∧
    (moduleInit e1).twilioSid = (moduleInit e2).twilioSid ∧
    (moduleInit e1).twilioToken = (moduleInit e2).twilioToken ∧
    (moduleInit e1).twilioPhone = (moduleInit e2).twilioPhone ∧
    TWOCAPTCHA_API_KEY = "511f612256b896997579db745494bfc8" ∧
    TWILIO_ACCOUNT_SID = "ACdf2d55bfb1135175dcea64c409bbe9a3" ∧
    TWILIO_AUTH_TOKEN = "fc60cff2421a59c9deab04ada45fe7fa" ∧
    TWILIO_PHONE_NUMBER = "+19497753576" := by
  refine ⟨rfl, rfl, rfl, rfl, by decide, by decide, by decide, by decide⟩

/-- Claim C6: in every account iteration the email-provider step is
conditional: Gmail is attempted first (at least one invocation); the
Outlook stage runs exactly when the Gmail stage failed after its
retries; if both stages fail, the iteration throws
`Failed to create any email account`; and the Apple ID stage runs if
and only if an email account was created (equivalently, an email
profile exists). -/
theorem createOneAccount_sequencing (gmail outlook : ℕ → Except String String)
    (apple : String → Bool → ℕ → Except String AppleAccount) :
    1 ≤ (createOneAccount gmail outlook apple).gmailCalls ∧
    (∀ p, (retry ("Gmail account creation") 2 5000 (3 / 2) gmail).result =
        Except.ok p → (createOneAccount gmail outlook apple).outlookCalls = 0) ∧
    (∀ e, (retry ("Gmail account creation") 2 5000 (3 / 2) gmail).result =
        Except.error e →
      1 ≤ (createOneAccount gmail outlook apple).outlookCalls) ∧
    (∀ e1 e2, (retry ("Gmail account creation") 2 5000 (3 / 2) gmail).result =
        Except.error e1 →
      (retry ("Outlook account creation") 2 5000 (3 / 2) outlook).result =
        Except.error e2 →
      (createOneAccount gmail outlook apple).result =
        Except.error ("Failed to create any email account")) ∧
    ((createOneAccount gmail outlook apple).appleAttempted = true ↔
      ((∃ p, (retry ("Gmail account creation") 2 5000 (3 / 2) gmail).result =
          Except.ok p) ∨
        ((∃ e, (retry ("Gmail account creation") 2 5000 (3 / 2) gmail).result =
            Except.error e) ∧
          ∃ p, (retry ("Outlook account creation") 2 5000 (3 / 2) outlook).result =
            Except.ok p))) ∧
    ((createOneAccount gmail outlook apple).appleAttempted = true ↔
      (createOneAccount gmail outlook apple).emailProfile.isSome) := by
  have hgpos : 1 ≤ (retry ("Gmail account creation") 2 5000 (3 / 2) gmail).calls :=
    retryLoop_calls_pos ("Gmail account creation") 2 5000 (3 / 2) gmail 1 1 none
  have hopos : 1 ≤ (retry ("Outlook account creation") 2 5000 (3 / 2) outlook).calls :=
    retryLoop_calls_pos ("Outlook account creation") 2 5000 (3 / 2) outlook 1 1 none
  cases hg : (retry ("Gmail account creation") 2 5000 (3 / 2) gmail).result with
  | ok p =>
      simp [createOneAccount, hg, hgpos]
  | error e =>
      cases ho : (retry ("Outlook account creation") 2 5000 (3 / 2) outlook).result with
      | ok p => simp [createOneAccount, hg, ho, hgpos, hopos]
      | error e2 => simp [createOneAccount, hg, ho, hgpos, hopos]

/-- Claim C7: the three major signup steps are each driven through the
`retry` wrapper with `maxRetries = 2` and `retryDelay = 5000`: within
one iteration no step function is invoked more than twice; a Gmail
stage whose two invocations both fail yields the retry error naming 2
attempts after waiting the single 5000 ms backoff delay, and an Apple
stage whose two invocations both fail makes the iteration throw the
retry error naming 2 attempts. -/
theorem createOneAccount_retry_limits (gmail outlook : ℕ → Except String String)
    (apple : String → Bool → ℕ → Except String AppleAccount) :
    (createOneAccount gmail outlook apple).gmailCalls ≤ 2 ∧
    (createOneAccount gmail outlook apple).outlookCalls ≤ 2 ∧
    (createOneAccount gmail outlook apple).appleCalls ≤ 2 ∧
    (∀ e1 e2, gmail 1 = Except.error e1 → gmail 2 = Except.error e2 →
      (retry ("Gmail account creation") 2 5000 (3 / 2) gmail).result =
        Except.error ("Gmail account creation failed after 2 attempts: " ++ e2) ∧
      (retry ("Gmail account creation") 2 5000 (3 / 2) gmail).delays = [5000]) ∧
    (∀ p f1 f2, (retry ("Gmail account creation") 2 5000 (3 / 2) gmail).result =
        Except.ok p →
      apple p true 1 = Except.error f1 → apple p true 2 = Except.error f2 →
      (createOneAccount gmail outlook apple).result =
        Except.error ("Apple ID creation failed after 2 attempts: " ++ f2)) := by
  have hgle := retryLoop_calls_le ("Gmail account creation") 2 5000 (3 / 2)
    gmail 2 1 none
  have hole := retryLoop_calls_le ("Outlook account creation") 2 5000 (3 / 2)
    outlook 2 1 none
  refine ⟨?_, ?_, ?_, ?_, ?_⟩
  · cases hg : (retry ("Gmail account creation") 2 5000 (3 / 2) gmail).result with
    | ok p => simpa [createOneAccount, hg] using hgle
    | error e =>
        cases ho : (retry ("Outlook account creation") 2 5000 (3 / 2) outlook).result with
        | ok p => simpa [createOneAccount, hg, ho] using hgle
        | error e2 => simpa [createOneAccount, hg, ho] using hgle
  · cases hg : (retry ("Gmail account creation") 2 5000 (3 / 2) gmail).result with
    | ok p => simp [createOneAccount, hg]
    | error e =>
        cases ho : (retry ("Outlook account creation") 2 5000 (3 / 2) outlook).result with
        | ok p => simpa [createOneAccount, hg, ho] using hole
        | error e2 => simpa [createOneAccount, hg, ho] using hole
  · cases hg : (retry ("Gmail account creation") 2 5000 (3 / 2) gmail).result with
    | ok p =>
        have := retryLoop_calls_le ("Apple ID creation") 2 5000 (3 / 2)
          (apple p true) 2 1 none
        simpa [createOneAccount, hg] using this
    | error e =>
        cases ho : (retry ("Outlook account creation") 2 5000 (3 / 2) outlook).result with
        | ok p =>
            have := retryLoop_calls_le ("Apple ID creation") 2 5000 (3 / 2)
              (apple p false) 2 1 none
            simpa [createOneAccount, hg, ho] using this
        | error e2 => simp [createOneAccount, hg, ho]
  · intro e1 e2 h1 h2
    constructor
    · have := retryLoop_fail_spec ("Gmail account creation") 2 5000 (3 / 2) gmail
        (fun n => if n = 1 then e1 else e2) 2 1 none (by omega)
        (fun j hj => by
          interval_cases j
          · simpa using h1
          · simpa using h2)
      rw [retry, this]
      have he : ((fun n => if n = 1 then e1 else e2) (1 + 2 - 1) : String) = e2 := rfl
      rw [he, show ("Gmail account creation" ++ " failed after " ++ toString 2 ++
        " attempts: " : String) = "Gmail account creation failed after 2 attempts: "
        from by decide]
    · simp [retry, retryLoop, h1, h2]
  · intro p f1 f2 hg h1 h2
    have := retryLoop_fail_spec ("Apple ID creation") 2 5000 (3 / 2) (apple p true)
      (fun n => if n = 1 then f1 else f2) 2 1 none (by omega)
      (fun j hj => by
        interval_cases j
        · simpa using h1
        · simpa using h2)
    simp only [createOneAccount, hg]
    rw [retry, this]
    have he : ((fun n => if n = 1 then f1 else f2) (1 + 2 - 1) : String) = f2 := rfl
    rw [he, show ("Apple ID creation" ++ " failed after " ++ toString 2 ++
      " attempts: " : String) = "Apple ID creation failed after 2 attempts: "
      from by decide]

/-- Claim C8 counterexample: with `ACCOUNTS_COUNT` set to `"-2"`,
`parseInt` yields -2 but the main loop runs zero iterations, so the
number of iterations is not `parseInt(ACCOUNTS_COUNT, 10)`. -/
theorem ACCOUNTS_COUNT_counterexample :
    ACCOUNTS_COUNT (some ("-2")) = some (-2) ∧
    loopIterations (ACCOUNTS_COUNT (some ("-2"))) = 0 ∧
    (-2 : ℤ) ≠ 0 := by
  refine ⟨by decide, by decide, by decide⟩

/-- Claim C8 (amended): for a non-empty value of `ACCOUNTS_COUNT` the
bound is `parseInt(value, 10)` and the number of iterations is that
value clamped to zero when negative, and zero when the parse is NaN;
when the variable is unset (or set to the falsy empty string) the
bound is `parseInt('1', 10) = 1`.  In particular, if the value starts
with no decimal number the parse is NaN, the loop runs zero times, the
program writes an empty accounts file and reports successful
completion without attempting any account creation. -/
theorem ACCOUNTS_COUNT_spec (s : String) (iter : ℕ → Except String AppleAccount)
    (hne : s ≠ "") :
    ACCOUNTS_COUNT (some s) = jsParseInt s ∧
    ACCOUNTS_COUNT none = some 1 ∧
    ACCOUNTS_COUNT (some ("")) = some 1 ∧
    loopIterations (ACCOUNTS_COUNT (some s)) =
      (match jsParseInt s with
        | none => 0
        | some n => n.toNat) ∧
    (jsParseInt s = none →
      loopIterations (ACCOUNTS_COUNT (some s)) = 0 ∧
      createAccountsRun (loopIterations (ACCOUNTS_COUNT (some s))) iter =
        Except.ok ("") ∧
      mainReport (createAccountsRun (loopIterations (ACCOUNTS_COUNT (some s))) iter) =
        "Account creation process completed successfully") := by
  have hs : ACCOUNTS_COUNT (some s) = jsParseInt s := by
    simp [ACCOUNTS_COUNT, jsOrDefault, hne]
  refine ⟨hs, by decide, by decide, ?_, ?_⟩
  · rw [hs]
    cases jsParseInt s with
    | none => rfl
    | some n => rfl
  · intro hnan
    rw [hs, hnan]
    exact ⟨rfl, rfl, rfl⟩

theorem ACCOUNTS_COUNT_spec_witness :
    createAccountsRun (loopIterations (ACCOUNTS_COUNT (some ("abc"))))
      (fun _ => Except.error ("x")) = Except.ok ("") :=
  ((ACCOUNTS_COUNT_spec ("abc") (fun _ => Except.error ("x"))
    (by decide)).2.2.2.2 (by decide)).2.1

/-- Claim C10: `captureScreenshot` and `captureHtml` never propagate an
exception: both return an `Option` (never a thrown error); on success
each returns the path of the file it wrote, built from the screenshots
directory, the name and the sanitized timestamp; on failure of any
internal step (directory creation, the screenshot call, reading the
page content, or the file write) each returns `null` (`none`). -/
theorem capture_never_throws (dirResult : Except String String)
    (rawTs nm : String) (shoot : String → Except String Unit)
    (content : Except String String)
    (writeFile : String → String → Except String Unit) :
    (∀ dir, dirResult = Except.ok dir →
      shoot (dir ++ "/" ++ nm ++ "_" ++ sanitizeTimestamp rawTs ++ ".png") =
        Except.ok () →
      captureScreenshot dirResult rawTs nm shoot =
        some (dir ++ "/" ++ nm ++ "_" ++ sanitizeTimestamp rawTs ++ ".png")) ∧
    (∀ p, captureScreenshot dirResult rawTs nm shoot = some p →
      ∃ dir, dirResult = Except.ok dir ∧
        p = dir ++ "/" ++ nm ++ "_" ++ sanitizeTimestamp rawTs ++ ".png" ∧
        shoot p = Except.ok ()) ∧
    (∀ e, dirResult = Except.error e →
      captureScreenshot dirResult rawTs nm shoot = none) ∧
    (∀ dir e, dirResult = Except.ok dir →
      shoot (dir ++ "/" ++ nm ++ "_" ++ sanitizeTimestamp rawTs ++ ".png") =
        Except.error e →
      captureScreenshot dirResult rawTs nm shoot = none) ∧
    (∀ dir html, dirResult = Except.ok dir → content = Except.ok html →
      writeFile (dir ++ "/" ++ nm ++ "_" ++ sanitizeTimestamp rawTs ++ ".html")
        html = Except.ok () →
      captureHtml dirResult rawTs nm content writeFile =
        some (dir ++ "/" ++ nm ++ "_" ++ sanitizeTimestamp rawTs ++ ".html")) ∧
    (∀ p, captureHtml dirResult rawTs nm content writeFile = some p →
      ∃ dir html, dirResult = Except.ok dir ∧ content = Except.ok html ∧
        p = dir ++ "/" ++ nm ++ "_" ++ sanitizeTimestamp rawTs ++ ".html" ∧
        writeFile p html = Except.ok ()) ∧
    (∀ e, dirResult = Except.error e →
      captureHtml dirResult rawTs nm content writeFile = none) ∧
    (∀ dir e, dirResult = Except.ok dir → content = Except.error e →
      captureHtml dirResult rawTs nm content writeFile = none) ∧
    (∀ dir html e, dirResult = Except.ok dir → content = Except.ok html →
      writeFile (dir ++ "/" ++ nm ++ "_" ++ sanitizeTimestamp rawTs ++ ".html")
        html = Except.error e →
      captureHtml dirResult rawTs nm content writeFile = none) := by
  refine ⟨?_, ?_, ?_, ?_, ?_, ?_, ?_, ?_, ?_⟩
  · intro dir hd hs
    simp [captureScreenshot, hd, hs]
  · intro p hp
    cases hd : dirResult with
    | error e => simp [captureScreenshot, hd] at hp
    | ok dir =>
        cases hs : shoot (dir ++ "/" ++ nm ++ "_" ++ sanitizeTimestamp rawTs ++ ".png") with
        | ok u =>
            cases u
            simp only [captureScreenshot, hd, hs] at hp
            obtain rfl := Option.some_inj.mp hp
            exact ⟨dir, rfl, rfl, hs⟩
        | error e2 => simp [captureScreenshot, hd, hs] at hp
  · intro e he
    simp [captureScreenshot, he]
  · intro dir e hd hs
    simp [captureScreenshot, hd, hs]
  · intro dir html hd hc hw
    simp [captureHtml, hd, hc, hw]
  · intro p hp
    cases hd : dirResult with
    | error e => simp [captureHtml, hd] at hp
    | ok dir =>
        cases hc : content with
        | error e => simp [captureHtml, hd, hc] at hp
        | ok html =>
            cases hw : writeFile
                (dir ++ "/" ++ nm ++ "_" ++ sanitizeTimestamp rawTs ++ ".html") html with
            | ok u =>
                cases u
                simp only [captureHtml, hd, hc, hw] at hp
                obtain rfl := Option.some_inj.mp hp
                exact ⟨dir, html, rfl, rfl, rfl, hw⟩
            | error ew => simp [captureHtml, hd, hc, hw] at hp
  · intro e he
    simp [captureHtml, he]
  · intro dir e hd hc
    simp [captureHtml, hd, hc]
  · intro dir html e hd hc hw
    simp [captureHtml, hd, hc, hw]
